import Mathlib

/-!
Shallow embedding of the `my-ai-tools` workflow engines
(`my_ai_tools/agents/plan_auto.py`, `pr_review.py`, `plan_interactive.py`).

Python strings are modelled as Lean `String`; `str.strip()` / `str.lower()`
are embedded over the ASCII whitespace class used by CPython's `\s` for the
inputs these flows handle.  Filesystem side effects are modelled by explicit
record-of-`Option String` file stores threaded through the step functions.
Fallible external calls (LLM backends, subprocesses, file reads that may
raise) are modelled with `Except String`.  The LangGraph execution engine
(invoke / interrupt_before / update_state+invoke-None resume) is modelled by
a fuel-indexed run loop that executes the pending node and continues until
the next interrupt point or the end of the graph; every cycle in each graph
passes through an interrupt point, so a small constant fuel is never
exhausted on any reachable run.
-/

-- ---------------------------------------------------------------------------
-- Python string primitives
-- ---------------------------------------------------------------------------

/-- The whitespace class of Python's `str.strip()` / `\s` (ASCII fragment):
space, tab, newline, carriage return, vertical tab, form feed. -/
def isPySpace (c : Char) : Bool :=
  c = ' ' || c = '\t' || c = '\n' || c = '\r' || c = '\x0b' || c = '\x0c'

/-- `str.strip()` on a character list: drop whitespace from both ends. -/
def pyStripList (l : List Char) : List Char :=
  ((l.dropWhile isPySpace).reverse.dropWhile isPySpace).reverse

/-- Python `str.strip()`. -/
def pyStrip (s : String) : String :=
  String.mk (pyStripList s.data)

/-- Python `str.lower()` (ASCII). -/
def pyLower (s : String) : String :=
  String.mk (s.data.map Char.toLower)

-- ---------------------------------------------------------------------------
-- pr_review.parse_recommendations (pr_review.py lines 140-171)
-- ---------------------------------------------------------------------------

/-- Case-insensitive literal match: `pat` is given in lowercase; returns the
remaining input on success.  Embeds the literal part of the
`re.IGNORECASE` pattern `Recommendations?`. -/
def matchCI : List Char → List Char → Option (List Char)
  | [], l => some l
  | _ :: _, [] => none
  | p :: ps, c :: cs => if c.toLower = p then matchCI ps cs else none

/-- Index of the last newline inside a (whitespace) run, if any. -/
def lastNlIdx (w : List Char) : Option Nat :=
  match w.reverse.findIdx? (fun c => c = '\n') with
  | none => none
  | some i => some (w.length - 1 - i)

/-- Greedy `\s*\n`: consume the longest whitespace prefix that ends with a
newline; fail when the whitespace prefix contains no newline. -/
def consumeWsNl (l : List Char) : Option (List Char) :=
  match lastNlIdx (l.takeWhile isPySpace) with
  | none => none
  | some j => some (l.drop (j + 1))

/-- Try to match `##\s*Recommendations?\s*\n` (re.IGNORECASE) at the head of
`l`; on success return the `(.*)` remainder (re.DOTALL takes everything). -/
def matchRecHeaderAt (l : List Char) : Option (List Char) :=
  match l with
  | '#' :: '#' :: rest =>
    match matchCI "recommendation".data (rest.dropWhile isPySpace) with
    | none => none
    | some r2 =>
      let r3 := match r2 with
        | 's' :: t => t
        | 'S' :: t => t
        | _ => r2
      consumeWsNl r3
  | _ => none

/-- `re.search`: leftmost match of the recommendations header; returns the
captured tail. -/
def findRecSection : List Char → Option (List Char)
  | [] => none
  | c :: rest =>
    match matchRecHeaderAt (c :: rest) with
    | some r => some r
    | none => findRecSection rest

/-- Lookahead `(?=\s*\d+[.)]\s+)` used by the item-splitting regex. -/
def lookaheadItem (l : List Char) : Bool :=
  let r1 := l.dropWhile isPySpace
  let ds := r1.takeWhile Char.isDigit
  match ds with
  | [] => false
  | _ :: _ =>
    match r1.drop ds.length with
    | c :: rest =>
      (c = '.' || c = ')') &&
        (match rest with
         | d :: _ => isPySpace d
         | [] => false)
    | [] => false

/-- `re.split(r"\n(?=\s*\d+[.)]\s+)", section)`: split at each newline whose
right context matches the lookahead; the newline is consumed. -/
def splitRecItems : List Char → List (List Char)
  | [] => [[]]
  | '\n' :: rest =>
    if lookaheadItem rest then [] :: splitRecItems rest
    else
      match splitRecItems rest with
      | t :: ts => ('\n' :: t) :: ts
      | [] => [['\n']]
  | c :: rest =>
    match splitRecItems rest with
    | t :: ts => (c :: t) :: ts
    | [] => [[c]]

/-- `re.sub(r"^\s*\d+[.)]\s*", "", p, count=1)`: remove one leading
numbered-list marker when present. -/
def subLeadingNum (l : List Char) : List Char :=
  let r1 := l.dropWhile isPySpace
  let ds := r1.takeWhile Char.isDigit
  match ds with
  | [] => l
  | _ :: _ =>
    match r1.drop ds.length with
    | c :: rest => if c = '.' || c = ')' then rest.dropWhile isPySpace else l
    | [] => l

/-- The `section` variable of `parse_recommendations` (pr_review.py lines
149-157): the captured tail of the header regex, stripped; the whole
(stripped) text when there is no match. -/
def recSec (text : String) : String :=
  match findRecSection text.data with
  | some rest => pyStrip (String.mk rest)
  | none => text

/-- The `items` list of `parse_recommendations` (line 160): split into parts,
strip each, keep the non-empty ones. -/
def recItems (sec : String) : List String :=
  ((splitRecItems sec.data).map (fun p => pyStrip (String.mk p))).filter
    (fun p => p ≠ "")

/-- The `cleaned` list of `parse_recommendations` (lines 162-166): drop one
leading list marker from each item, strip, keep the non-empty ones. -/
def recCleaned (sec : String) : List String :=
  ((recItems sec).map (fun p => pyStrip (String.mk (subLeadingNum p.data)))).filter
    (fun p => p ≠ "")

/-- `parse_recommendations` after the empty-input early return
(pr_review.py lines 147-171). -/
def parseCore (full_text : String) : List String :=
  let text := pyStrip full_text
  let sec := recSec text
  if recCleaned sec ≠ [] then recCleaned sec
  else if pyStrip sec ≠ "" then [sec]
  else [full_text]

/-- `pr_review.parse_recommendations`: parse a numbered list from a
`## Recommendations` section, falling back to the whole section or the full
text. -/
def parse_recommendations (full_text : String) : List String :=
  if pyStrip full_text = "" then []
  else parseCore full_text

-- ---------------------------------------------------------------------------
-- Auto planning flow (plan_auto.py)
-- ---------------------------------------------------------------------------

namespace PlanAuto

/-- The pluggable LLM backend module (`plan_auto._resolve_backend` result):
each generator may fail (network / model errors), modelled with
`Except String`. -/
structure Backend where
  generate_plan : String → String → Except String String
  generate_plan_revision : String → String → String → String → Except String String
  generate_interface : String → String → Except String String
  generate_interface_revision : String → String → String → String → Except String String
  generate_code_and_tests : String → String → Except String (String × String)

/-- `planning_common.PlanningState`. -/
structure PlanningState where
  task_description : String
  project_root : String
  human_feedback : String
  phase : String
deriving DecidableEq, Repr

/-- The project directory: the four artifact files of `planning_common`
(`plan.md`, `interface.md`, `generated_module.py`, `test_baseline.py`);
`none` means the file does not exist. -/
structure FS where
  plan_md : Option String
  interface_md : Option String
  code_py : Option String
  test_py : Option String
deriving DecidableEq, Repr

/-- A partial state update as returned by a LangGraph node (shallow merge:
`none` leaves the field untouched). -/
structure Patch where
  phase : Option String := none
  human_feedback : Option String := none
deriving DecidableEq, Repr

/-- LangGraph's shallow state merge. -/
def applyPatch (st : PlanningState) (p : Patch) : PlanningState :=
  { st with
    phase := p.phase.getD st.phase
    human_feedback := p.human_feedback.getD st.human_feedback }

/-- The generator call chosen by `_planner` (plan_auto.py lines 79-85): the
revision branch fires when feedback is non-empty, not the approval token
after `.lower().strip()`, and `plan.md` exists. -/
def plannerGen (b : Backend) (st : PlanningState) (fs : FS) : Except String String :=
  let feedback := st.human_feedback
  if feedback ≠ "" && pyStrip (pyLower feedback) ≠ "approved" && fs.plan_md.isSome then
    b.generate_plan_revision st.task_description st.project_root
      (fs.plan_md.getD "") feedback
  else
    b.generate_plan st.task_description st.project_root

/-- Body of `_planner` inside the `try:` block (plan_auto.py lines 73-88). -/
def plannerTry (b : Backend) (st : PlanningState) (fs : FS) :
    Except String (Patch × FS) :=
  match plannerGen b st fs with
  | .error e => .error e
  | .ok content =>
    .ok ({ phase := some "plan_review", human_feedback := some "" },
         { fs with plan_md := some content })

/-- `_planner` with its `except Exception` handler (plan_auto.py lines 71-90). -/
def _planner (b : Backend) (st : PlanningState) (fs : FS) : Patch × FS :=
  match plannerTry b st fs with
  | .ok r => r
  | .error e =>
    ({ phase := some "error", human_feedback := some ("Planner error: " ++ e) }, fs)

/-- `_plan_review`: pass-through node executed after the interrupt. -/
def _plan_review (_st : PlanningState) : Patch :=
  { phase := some "plan_review" }

/-- `_route_plan_review` (plan_auto.py lines 96-100). -/
def _route_plan_review (st : PlanningState) : String :=
  if pyLower (pyStrip st.human_feedback) = "approved" then "interfacer" else "planner"

/-- The generator call chosen by `_interfacer` (plan_auto.py lines 111-120),
given the existing `plan.md` content. -/
def interfacerGen (b : Backend) (st : PlanningState) (fs : FS) (plan_content : String) :
    Except String String :=
  let feedback := st.human_feedback
  if feedback ≠ "" && pyStrip (pyLower feedback) ≠ "approved" && fs.interface_md.isSome then
    b.generate_interface_revision plan_content st.project_root
      (fs.interface_md.getD "") feedback
  else
    b.generate_interface plan_content st.project_root

/-- Body of `_interfacer` inside the `try:` block (plan_auto.py lines 104-123).
A missing `plan.md` yields an error patch via `return`, not an exception. -/
def interfacerTry (b : Backend) (st : PlanningState) (fs : FS) :
    Except String (Patch × FS) :=
  match fs.plan_md with
  | none =>
    .ok ({ phase := some "error",
           human_feedback := some "plan.md not found; run planner first." }, fs)
  | some plan_content =>
    match interfacerGen b st fs plan_content with
    | .error e => .error e
    | .ok content =>
      .ok ({ phase := some "interface_review", human_feedback := some "" },
           { fs with interface_md := some content })

/-- `_interfacer` with its `except Exception` handler. -/
def _interfacer (b : Backend) (st : PlanningState) (fs : FS) : Patch × FS :=
  match interfacerTry b st fs with
  | .ok r => r
  | .error e =>
    ({ phase := some "error", human_feedback := some ("Interfacer error: " ++ e) }, fs)

/-- `_interface_review`: pass-through node executed after the interrupt. -/
def _interface_review (_st : PlanningState) : Patch :=
  { phase := some "interface_review" }

/-- `_route_interface_review` (plan_auto.py lines 131-135). -/
def _route_interface_review (st : PlanningState) : String :=
  if pyLower (pyStrip st.human_feedback) = "approved" then "executor" else "interfacer"

/-- Body of `_executor` inside the `try:` block (plan_auto.py lines 139-150). -/
def executorTry (b : Backend) (st : PlanningState) (fs : FS) :
    Except String (Patch × FS) :=
  match fs.interface_md with
  | none =>
    .ok ({ phase := some "error", human_feedback := some "interface.md not found." }, fs)
  | some interface_content =>
    match b.generate_code_and_tests interface_content st.project_root with
    | .error e => .error e
    | .ok ct =>
      .ok ({ phase := some "done", human_feedback := some "" },
           { fs with code_py := some ct.1, test_py := some ct.2 })

/-- `_executor` with its `except Exception` handler. -/
def _executor (b : Backend) (st : PlanningState) (fs : FS) : Patch × FS :=
  match executorTry b st fs with
  | .ok r => r
  | .error e =>
    ({ phase := some "error", human_feedback := some ("Executor error: " ++ e) }, fs)

/-- The graph's node names; `finish` is LangGraph's `END`. -/
inductive Node where
  | planner
  | plan_review
  | interfacer
  | interface_review
  | executor
  | finish
deriving DecidableEq, Repr

/-- `interrupt_before=["plan_review", "interface_review"]`. -/
def isInterrupt : Node → Bool
  | .plan_review => true
  | .interface_review => true
  | _ => false

/-- Execute one node: apply its patch and follow its (conditional) edge,
exactly as wired in `build_graph` (plan_auto.py lines 156-177). -/
def execNode (b : Backend) (n : Node) (st : PlanningState) (fs : FS) :
    PlanningState × FS × Node :=
  match n with
  | .planner =>
    let r := _planner b st fs
    (applyPatch st r.1, r.2, .plan_review)
  | .plan_review =>
    let st2 := applyPatch st (_plan_review st)
    (st2, fs, if _route_plan_review st2 = "interfacer" then .interfacer else .planner)
  | .interfacer =>
    let r := _interfacer b st fs
    (applyPatch st r.1, r.2, .interface_review)
  | .interface_review =>
    let st2 := applyPatch st (_interface_review st)
    (st2, fs, if _route_interface_review st2 = "executor" then .executor else .interfacer)
  | .executor =>
    let r := _executor b st fs
    (applyPatch st r.1, r.2, .finish)
  | .finish => (st, fs, .finish)

/-- LangGraph's run loop: execute the pending node, stop before an interrupt
point or at `END`.  Every cycle of this graph passes through an interrupt
point, so any fuel of at least 3 behaves identically on every input. -/
def run (b : Backend) : Nat → PlanningState → FS → Node → PlanningState × FS × Node
  | 0, st, fs, n => (st, fs, n)
  | fuel + 1, st, fs, n =>
    if n = Node.finish then (st, fs, Node.finish)
    else
      let r := execNode b n st fs
      if isInterrupt r.2.2 || r.2.2 = Node.finish then r
      else run b fuel r.1 r.2.1 r.2.2

/-- `start_auto_plan` (plan_auto.py lines 189-214); `cwd` models
`os.getcwd()` used when `project_root` is empty. -/
def start_auto_plan (b : Backend) (task_description project_root cwd : String)
    (fs : FS) : PlanningState × FS × Node :=
  let initial : PlanningState :=
    { task_description := task_description
      project_root := if project_root = "" then cwd else project_root
      human_feedback := ""
      phase := "planning" }
  run b 8 initial fs .planner

/-- `resume_auto_plan` (plan_auto.py lines 217-237): merge the feedback
patch into the latest checkpoint, then invoke; on a finished thread there is
no pending node, so nothing executes. -/
def resume_auto_plan (b : Backend) (human_feedback : String)
    (st : PlanningState) (fs : FS) (n : Node) : PlanningState × FS × Node :=
  let st2 := { st with human_feedback := human_feedback }
  if n = Node.finish then (st2, fs, Node.finish)
  else run b 8 st2 fs n

end PlanAuto

-- ---------------------------------------------------------------------------
-- PR review flow (pr_review.py)
-- ---------------------------------------------------------------------------

namespace PRReview

/-- `pr_review.PRReviewState` (pr_review.py lines 31-42); `current_index` is a
Python `int`, so it is embedded as `Int`. -/
structure PRReviewState where
  pr_url : String
  repo_path : String
  recommendations : List String
  current_index : Int
  human_feedback : String
  phase : String
  full_review_text : String
  current_recommendation_text : String
  review_context_bundle : String
  generated_review_content : String
deriving DecidableEq, Repr

/-- External collaborators of the two effectful nodes: the
`run_pr_review_v2_and_sync` subprocess pipeline (url to repo path), the
`get_repo_context` git outputs (status, diff, branch diff, log), and the
`load_pr_review_prompt` file content. -/
structure Env where
  pull : String → Except String String
  repo_context : String → Except String (String × String × String × String)
  prompt : String
  base_branch : String

/-- `_pull_data` (pr_review.py lines 178-194): catches any failure into an
error patch. -/
def _pull_data (env : Env) (st : PRReviewState) : PRReviewState :=
  match env.pull st.pr_url with
  | .ok repo_path =>
    { st with repo_path := repo_path, phase := "review",
              recommendations := [], current_index := 0 }
  | .error e =>
    { st with phase := "error", full_review_text := e, recommendations := [e] }

/-- The bundle string built by `_assemble_review_context`
(pr_review.py lines 208-218). -/
def mkBundle (prompt base_branch status diff branch_diff log : String) : String :=
  let system := prompt ++ "\n\nEnd your response with a **## Recommendations** section containing a numbered list (1. 2. 3. ...) of actionable recommendations, most important first (blockers → high → medium → low)."
  let user_content := "Use the following git outputs as source of truth.\n" ++
    "--- git status ---\n" ++ status ++
    "\n--- git diff (uncommitted) ---\n" ++ diff ++
    "\n--- git diff origin/" ++ base_branch ++ "...HEAD (branch vs base) ---\n" ++ branch_diff ++
    "\n--- git log (optional) ---\n" ++ log
  "## System / role\n\n" ++ system ++ "\n\n## User / repo context\n\n" ++ user_content

/-- `_assemble_review_context` (pr_review.py lines 197-223). -/
def _assemble_review_context (env : Env) (st : PRReviewState) : PRReviewState :=
  match env.repo_context st.repo_path with
  | .error e =>
    { st with phase := "error", review_context_bundle := "", recommendations := [e] }
  | .ok ctx =>
    { st with phase := "review",
              review_context_bundle :=
                mkBundle env.prompt env.base_branch ctx.1 ctx.2.1 ctx.2.2.1 ctx.2.2.2,
              generated_review_content := "" }

/-- `_gate_review` (pr_review.py lines 226-241): inject caller-provided review
content; empty patch when no content was supplied. -/
def _gate_review (st : PRReviewState) : PRReviewState :=
  let content := pyStrip st.generated_review_content
  if content = "" then st
  else
    let recs0 := parse_recommendations content
    let recs := if recs0 = [] then [content] else recs0
    { st with phase := "recommendation",
              full_review_text := content,
              recommendations := recs,
              current_index := 0,
              current_recommendation_text := recs.headD "",
              generated_review_content := "" }

/-- Python's `recs[idx] if 0 <= idx < len(recs) else ""`. -/
def listGet (recs : List String) (idx : Int) : String :=
  if h : 0 ≤ idx ∧ idx < (recs.length : Int) then
    recs.get ⟨idx.toNat, by omega⟩
  else ""

/-- `_present_recommendation` (pr_review.py lines 244-249). -/
def _present_recommendation (st : PRReviewState) : PRReviewState :=
  { st with current_recommendation_text := listGet st.recommendations st.current_index,
            phase := "recommendation" }

/-- `_gate` (pr_review.py lines 252-265). -/
def _gate (st : PRReviewState) : PRReviewState :=
  let feedback := pyLower (pyStrip st.human_feedback)
  let recs := st.recommendations
  let idx := st.current_index
  if feedback = "abort" then
    { st with phase := "aborted", current_index := idx }
  else if feedback = "approved" || feedback = "next" || feedback = "continue" ||
          feedback = "yes" || feedback = "ok" then
    let next_idx := idx + 1
    if next_idx ≥ (recs.length : Int) then
      { st with phase := "done", current_index := next_idx }
    else
      { st with phase := "recommendation", current_index := next_idx }
  else
    { st with phase := "recommendation", current_index := idx }

/-- `_route_after_gate` (pr_review.py lines 268-273). -/
def _route_after_gate (st : PRReviewState) : String :=
  if st.phase = "aborted" || st.phase = "done" then "__end__"
  else "present_recommendation"

/-- `_route_after_gate_review` (pr_review.py lines 276-280). -/
def _route_after_gate_review (st : PRReviewState) : String :=
  if st.phase = "error" then "__end__" else "present_recommendation"

/-- The graph's node names; `finish` is LangGraph's `END`. -/
inductive Node where
  | pull_data
  | assemble_review_context
  | gate_review
  | present_recommendation
  | gate
  | finish
deriving DecidableEq, Repr

/-- `interrupt_before=["gate_review", "gate"]`. -/
def isInterrupt : Node → Bool
  | .gate_review => true
  | .gate => true
  | _ => false

/-- Execute one node and follow its edge, as wired in `build_graph`
(pr_review.py lines 287-313). -/
def execNode (env : Env) (n : Node) (st : PRReviewState) : PRReviewState × Node :=
  match n with
  | .pull_data => (_pull_data env st, .assemble_review_context)
  | .assemble_review_context => (_assemble_review_context env st, .gate_review)
  | .gate_review =>
    let st2 := _gate_review st
    (st2, if _route_after_gate_review st2 = "__end__" then .finish
          else .present_recommendation)
  | .present_recommendation => (_present_recommendation st, .gate)
  | .gate =>
    let st2 := _gate st
    (st2, if _route_after_gate st2 = "__end__" then .finish
          else .present_recommendation)
  | .finish => (st, .finish)

/-- LangGraph's run loop for the PR review graph. -/
def run (env : Env) : Nat → PRReviewState → Node → PRReviewState × Node
  | 0, st, n => (st, n)
  | fuel + 1, st, n =>
    if n = Node.finish then (st, Node.finish)
    else
      let r := execNode env n st
      if isInterrupt r.2 || r.2 = Node.finish then r
      else run env fuel r.1 r.2

/-- `start_pr_review` (pr_review.py lines 320-344). -/
def start_pr_review (env : Env) (pr_url : String) : PRReviewState × Node :=
  let initial : PRReviewState :=
    { pr_url := pr_url, repo_path := "", recommendations := [], current_index := 0,
      human_feedback := "", phase := "pull", full_review_text := "",
      current_recommendation_text := "", review_context_bundle := "",
      generated_review_content := "" }
  run env 8 initial .pull_data

/-- `resume_pr_review` (pr_review.py lines 347-367): each patch component is
merged only when non-empty (Python truthiness of the keyword arguments). -/
def resume_pr_review (env : Env) (content human_feedback : String)
    (st : PRReviewState) (n : Node) : PRReviewState × Node :=
  let st1 := if content ≠ "" then { st with generated_review_content := content } else st
  let st2 := if human_feedback ≠ "" then { st1 with human_feedback := human_feedback } else st1
  if n = Node.finish then (st2, Node.finish)
  else run env 8 st2 n

end PRReview

-- ---------------------------------------------------------------------------
-- Interactive planning flow (plan_interactive.py)
-- ---------------------------------------------------------------------------

namespace PlanInteractive

/-- `plan_interactive.InteractivePlanningState` (lines 46-54). -/
structure InteractivePlanningState where
  task_description : String
  project_root : String
  phase : String
  context_bundle : String
  generated_content : String
  human_feedback : String
deriving DecidableEq, Repr

/-- Project directory plus the `SKILL.md` content read by
`planning_common.load_skill` (which returns `""` when the file is absent or
unreadable). -/
structure FS where
  plan_md : Option String
  interface_md : Option String
  code_py : Option String
  test_py : Option String
  skill : String
deriving DecidableEq, Repr

/-- A partial state update as returned by a LangGraph node. -/
structure Patch where
  phase : Option String := none
  context_bundle : Option String := none
  generated_content : Option String := none
  human_feedback : Option String := none
deriving DecidableEq, Repr

/-- LangGraph's shallow state merge. -/
def applyPatch (st : InteractivePlanningState) (p : Patch) : InteractivePlanningState :=
  { st with
    phase := p.phase.getD st.phase
    context_bundle := p.context_bundle.getD st.context_bundle
    generated_content := p.generated_content.getD st.generated_content
    human_feedback := p.human_feedback.getD st.human_feedback }

/-- `planning_common.assemble_plan_context` (lines 45-70); `skill` is the
`load_skill()` result, passed explicitly. -/
def assemble_plan_context (skill task_description project_root feedback existing_plan : String) :
    String :=
  let parts := ["# Planning Task\n",
    "**Task:** " ++ task_description ++ "\n",
    "**Project:** " ++ project_root ++ "\n"]
  let parts := if skill ≠ "" then
      parts ++ ["\n## Planning Framework\n\n" ++ skill ++ "\n"] else parts
  let parts := if existing_plan ≠ "" then
      parts ++ ["\n## Current Plan (needs revision)\n\n" ++ existing_plan ++ "\n"] else parts
  let parts := if feedback ≠ "" then
      parts ++ ["\n## Revision Feedback\n\n" ++ feedback ++ "\n"] else parts
  let parts := if existing_plan ≠ "" || feedback ≠ "" then
      parts ++ ["\nPlease revise the plan to address the feedback above.\n"]
    else
      parts ++ ["\nGenerate a comprehensive plan in markdown following the planning framework above.\n"]
  String.intercalate "\n" parts

/-- `planning_common.assemble_interface_context` (lines 73-95). -/
def assemble_interface_context (plan_content project_root feedback existing_interface : String) :
    String :=
  let parts := ["# Interface Design\n",
    "**Project:** " ++ project_root ++ "\n",
    "\n## Plan\n\n" ++ plan_content ++ "\n"]
  let parts := if existing_interface ≠ "" then
      parts ++ ["\n## Current Interface (needs revision)\n\n" ++ existing_interface ++ "\n"] else parts
  let parts := if feedback ≠ "" then
      parts ++ ["\n## Revision Feedback\n\n" ++ feedback ++ "\n"] else parts
  let parts := if existing_interface ≠ "" || feedback ≠ "" then
      parts ++ ["\nPlease revise the interface to address the feedback above.\n"]
    else
      parts ++ ["\nGenerate type hints, function signatures, and class signatures in markdown.\n"]
  String.intercalate "\n" parts

/-- `planning_common.assemble_code_context` (lines 98-122). -/
def assemble_code_context (interface_content project_root feedback existing_code : String) :
    String :=
  let parts := ["# Code Generation\n",
    "**Project:** " ++ project_root ++ "\n",
    "\n## Interface\n\n" ++ interface_content ++ "\n"]
  let parts := if existing_code ≠ "" then
      parts ++ ["\n## Current Code (needs revision)\n\n" ++ existing_code ++ "\n"] else parts
  let parts := if feedback ≠ "" then
      parts ++ ["\n## Revision Feedback\n\n" ++ feedback ++ "\n"] else parts
  let parts := if existing_code ≠ "" || feedback ≠ "" then
      parts ++ ["\nPlease revise the code to address the feedback above.\n"]
    else
      parts ++ ["\nGenerate two sections:\n1. A Python module implementing the interface (headed with `## MODULE`)\n2. A pytest test file (headed with `## TEST`)\n"]
  String.intercalate "\n" parts

/-- `_assemble` (plan_interactive.py lines 61-92): builds the context bundle
for the current phase.  The unguarded `read_text` calls for `plan.md` /
`interface.md` raise when the file is missing (no handler in this node), so
those branches are `Except.error`. -/
def _assemble (st : InteractivePlanningState) (fs : FS) : Except String Patch :=
  let feedback := st.human_feedback
  if st.phase = "plan" then
    let existing := if feedback ≠ "" && fs.plan_md.isSome then fs.plan_md.getD "" else ""
    .ok { context_bundle :=
            some (assemble_plan_context fs.skill st.task_description st.project_root
              feedback existing),
          generated_content := some "", human_feedback := some "" }
  else if st.phase = "interface" then
    match fs.plan_md with
    | none => .error "FileNotFoundError: plan.md"
    | some plan =>
      let existing := if feedback ≠ "" && fs.interface_md.isSome then fs.interface_md.getD "" else ""
      .ok { context_bundle :=
              some (assemble_interface_context plan st.project_root feedback existing),
            generated_content := some "", human_feedback := some "" }
  else if st.phase = "code" then
    match fs.interface_md with
    | none => .error "FileNotFoundError: interface.md"
    | some iface =>
      let existing := if feedback ≠ "" && fs.code_py.isSome then fs.code_py.getD "" else ""
      .ok { context_bundle :=
              some (assemble_code_context iface st.project_root feedback existing),
            generated_content := some "", human_feedback := some "" }
  else
    .ok { context_bundle := some "", generated_content := some "", human_feedback := some "" }

/-- `_route_gate` (plan_interactive.py lines 100-104). -/
def _route_gate (st : InteractivePlanningState) : String :=
  if pyStrip st.generated_content ≠ "" then "save" else "assemble"

/-- First occurrence split: `content.split(pat, 1)`; `none` when `pat` does
not occur (Python's `pat in content` is `(splitFirst ...).isSome`). -/
def splitFirst (pat : List Char) : List Char → Option (List Char × List Char)
  | [] => if pat = [] then some ([], []) else none
  | c :: cs =>
    if pat.isPrefixOf (c :: cs) then some ([], (c :: cs).drop pat.length)
    else
      match splitFirst pat cs with
      | some lr => some (c :: lr.1, lr.2)
      | none => none

/-- `_save` (plan_interactive.py lines 107-135): write the artifact for the
current phase and advance. -/
def _save (st : InteractivePlanningState) (fs : FS) : Patch × FS :=
  let content := st.generated_content
  if st.phase = "plan" then
    ({ phase := some "interface", generated_content := some "", context_bundle := some "" },
     { fs with plan_md := some content })
  else if st.phase = "interface" then
    ({ phase := some "code", generated_content := some "", context_bundle := some "" },
     { fs with interface_md := some content })
  else if st.phase = "code" then
    let ct :=
      match splitFirst "## TEST".data content.data with
      | some lr =>
        (pyStrip ((String.mk lr.1).replace "## MODULE" ""), pyStrip (String.mk lr.2))
      | none => (content, "# Add pytest tests here")
    ({ phase := some "done", generated_content := some "", context_bundle := some "" },
     { fs with code_py := some ct.1, test_py := some ct.2 })
  else
    ({ phase := some "done", generated_content := some "", context_bundle := some "" }, fs)

/-- `_route_after_save` (plan_interactive.py lines 138-142). -/
def _route_after_save (st : InteractivePlanningState) : String :=
  if st.phase = "done" then "__end__" else "assemble"

/-- The graph's node names; `finish` is LangGraph's `END`. -/
inductive Node where
  | assemble
  | gate
  | save
  | finish
deriving DecidableEq, Repr

/-- `interrupt_before=["gate"]`. -/
def isInterrupt : Node → Bool
  | .gate => true
  | _ => false

/-- Execute one node and follow its edge, as wired in `build_graph`
(plan_interactive.py lines 149-173).  `_gate` itself returns an empty patch;
an exception escaping `_assemble` propagates out of the invoke. -/
def execNode (n : Node) (st : InteractivePlanningState) (fs : FS) :
    Except String (InteractivePlanningState × FS × Node) :=
  match n with
  | .assemble =>
    match _assemble st fs with
    | .error e => .error e
    | .ok p => .ok (applyPatch st p, fs, .gate)
  | .gate =>
    .ok (st, fs, if _route_gate st = "save" then .save else .assemble)
  | .save =>
    let r := _save st fs
    let st2 := applyPatch st r.1
    .ok (st2, r.2, if _route_after_save st2 = "__end__" then .finish else .assemble)
  | .finish => .ok (st, fs, .finish)

/-- LangGraph's run loop for the interactive planning graph. -/
def run : Nat → InteractivePlanningState → FS → Node →
    Except String (InteractivePlanningState × FS × Node)
  | 0, st, fs, n => .ok (st, fs, n)
  | fuel + 1, st, fs, n =>
    if n = Node.finish then .ok (st, fs, Node.finish)
    else
      match execNode n st fs with
      | .error e => .error e
      | .ok r =>
        if isInterrupt r.2.2 || r.2.2 = Node.finish then .ok r
        else run fuel r.1 r.2.1 r.2.2

/-- `start_interactive_plan` (plan_interactive.py lines 180-203). -/
def start_interactive_plan (task_description project_root cwd : String) (fs : FS) :
    Except String (InteractivePlanningState × FS × Node) :=
  let initial : InteractivePlanningState :=
    { task_description := task_description
      project_root := if project_root = "" then cwd else project_root
      phase := "plan", context_bundle := "", generated_content := ""
      human_feedback := "" }
  run 8 initial fs .assemble

/-- `resume_interactive_plan` (plan_interactive.py lines 206-228): each patch
component is merged only when non-empty (Python truthiness); there is no
validation that only one of the two was supplied. -/
def resume_interactive_plan (content feedback : String)
    (st : InteractivePlanningState) (fs : FS) (n : Node) :
    Except String (InteractivePlanningState × FS × Node) :=
  let st1 := if content ≠ "" then { st with generated_content := content } else st
  let st2 := if feedback ≠ "" then { st1 with human_feedback := feedback } else st1
  if n = Node.finish then .ok (st2, fs, Node.finish)
  else run 8 st2 fs n

end PlanInteractive

-- ---------------------------------------------------------------------------
-- Concrete fixtures (used by the witness theorems)
-- ---------------------------------------------------------------------------

/-- A backend whose generators always succeed with fixed content. -/
def PlanAuto.okBackend : PlanAuto.Backend where
  generate_plan := fun _ _ => .ok "P"
  generate_plan_revision := fun _ _ _ _ => .ok "P2"
  generate_interface := fun _ _ => .ok "I"
  generate_interface_revision := fun _ _ _ _ => .ok "I2"
  generate_code_and_tests := fun _ _ => .ok ("C", "T")

/-- A backend whose generators always raise. -/
def PlanAuto.failBackend : PlanAuto.Backend where
  generate_plan := fun _ _ => .error "boom"
  generate_plan_revision := fun _ _ _ _ => .error "boom"
  generate_interface := fun _ _ => .error "boom"
  generate_interface_revision := fun _ _ _ _ => .error "boom"
  generate_code_and_tests := fun _ _ => .error "boom"

/-- A PR review environment whose subprocess calls succeed. -/
def PRReview.sampleEnv : PRReview.Env where
  pull := fun _ => .ok "/repo"
  repo_context := fun _ => .ok ("s", "d", "bd", "l")
  prompt := "review"
  base_branch := "master"

-- ---------------------------------------------------------------------------
-- Helper lemmas: string primitives
-- ---------------------------------------------------------------------------

theorem pyStrip_empty : pyStrip "" = "" := rfl

theorem pyStrip_ne_empty_of {s : String} (h : pyStrip s ≠ "") : s ≠ "" := by
  intro hs
  apply h
  rw [hs]
  exact pyStrip_empty

-- ---------------------------------------------------------------------------
-- Helper lemmas: one engine step of the auto planning run loop
-- ---------------------------------------------------------------------------

theorem PlanAuto.run_planner (b : PlanAuto.Backend) (fuel : Nat)
    (st : PlanAuto.PlanningState) (fs : PlanAuto.FS) :
    PlanAuto.run b (fuel + 1) st fs .planner = PlanAuto.execNode b .planner st fs := rfl

theorem PlanAuto.run_interfacer (b : PlanAuto.Backend) (fuel : Nat)
    (st : PlanAuto.PlanningState) (fs : PlanAuto.FS) :
    PlanAuto.run b (fuel + 1) st fs .interfacer = PlanAuto.execNode b .interfacer st fs := rfl

theorem PlanAuto.run_executor (b : PlanAuto.Backend) (fuel : Nat)
    (st : PlanAuto.PlanningState) (fs : PlanAuto.FS) :
    PlanAuto.run b (fuel + 1) st fs .executor = PlanAuto.execNode b .executor st fs := rfl

theorem PlanAuto.run_plan_review (b : PlanAuto.Backend) (fuel : Nat)
    (st : PlanAuto.PlanningState) (fs : PlanAuto.FS) :
    PlanAuto.run b (fuel + 1) st fs .plan_review =
      (if PlanAuto._route_plan_review { st with phase := "plan_review" } = "interfacer" then
        PlanAuto.run b fuel { st with phase := "plan_review" } fs .interfacer
      else
        PlanAuto.run b fuel { st with phase := "plan_review" } fs .planner) := by
  simp only [PlanAuto.run]
  simp only [PlanAuto.execNode, PlanAuto._plan_review, PlanAuto.applyPatch,
    Option.getD_some, Option.getD_none]
  by_cases hr : PlanAuto._route_plan_review { st with phase := "plan_review" } = "interfacer"
  · simp [hr, PlanAuto.isInterrupt]
  · simp [hr, PlanAuto.isInterrupt]

theorem PlanAuto.run_interface_review (b : PlanAuto.Backend) (fuel : Nat)
    (st : PlanAuto.PlanningState) (fs : PlanAuto.FS) :
    PlanAuto.run b (fuel + 1) st fs .interface_review =
      (if PlanAuto._route_interface_review { st with phase := "interface_review" } = "executor" then
        PlanAuto.run b fuel { st with phase := "interface_review" } fs .executor
      else
        PlanAuto.run b fuel { st with phase := "interface_review" } fs .interfacer) := by
  simp only [PlanAuto.run]
  simp only [PlanAuto.execNode, PlanAuto._interface_review, PlanAuto.applyPatch,
    Option.getD_some, Option.getD_none]
  by_cases hr : PlanAuto._route_interface_review { st with phase := "interface_review" } = "executor"
  · simp [hr, PlanAuto.isInterrupt]
  · simp [hr, PlanAuto.isInterrupt]

-- ---------------------------------------------------------------------------
-- Helper lemmas: one engine step of the interactive planning run loop
-- ---------------------------------------------------------------------------

theorem PlanInteractive.run_gate (fuel : Nat)
    (st : PlanInteractive.InteractivePlanningState) (fs : PlanInteractive.FS) :
    PlanInteractive.run (fuel + 1) st fs .gate =
      (if PlanInteractive._route_gate st = "save" then PlanInteractive.run fuel st fs .save
       else PlanInteractive.run fuel st fs .assemble) := by
  simp only [PlanInteractive.run, PlanInteractive.execNode]
  by_cases hr : PlanInteractive._route_gate st = "save"
  · simp [hr, PlanInteractive.isInterrupt]
  · simp [hr, PlanInteractive.isInterrupt]

theorem PlanInteractive.run_save (fuel : Nat)
    (st : PlanInteractive.InteractivePlanningState) (fs : PlanInteractive.FS) :
    PlanInteractive.run (fuel + 1) st fs .save =
      (if PlanInteractive._route_after_save
          (PlanInteractive.applyPatch st (PlanInteractive._save st fs).1) = "__end__" then
        .ok (PlanInteractive.applyPatch st (PlanInteractive._save st fs).1,
             (PlanInteractive._save st fs).2, PlanInteractive.Node.finish)
      else
        PlanInteractive.run fuel (PlanInteractive.applyPatch st (PlanInteractive._save st fs).1)
          (PlanInteractive._save st fs).2 .assemble) := by
  simp only [PlanInteractive.run, PlanInteractive.execNode]
  by_cases hr : PlanInteractive._route_after_save
      (PlanInteractive.applyPatch st (PlanInteractive._save st fs).1) = "__end__"
  · simp [hr, PlanInteractive.isInterrupt]
  · simp [hr, PlanInteractive.isInterrupt]

theorem PlanInteractive.run_assemble (fuel : Nat)
    (st : PlanInteractive.InteractivePlanningState) (fs : PlanInteractive.FS) :
    PlanInteractive.run (fuel + 1) st fs .assemble =
      (match PlanInteractive._assemble st fs with
       | .error e => .error e
       | .ok p => .ok (PlanInteractive.applyPatch st p, fs, PlanInteractive.Node.gate)) := by
  cases ha : PlanInteractive._assemble st fs <;>
    simp [PlanInteractive.run, PlanInteractive.execNode, ha, PlanInteractive.isInterrupt]

-- ---------------------------------------------------------------------------
-- Claim theorems
-- ---------------------------------------------------------------------------

/-- C1: Linear happy path of the auto planning workflow.  For any task
description, project root and project directory, when the backend calls
succeed: `start_auto_plan` pauses with phase `plan_review`; a
`resume_auto_plan` with feedback `approved` pauses with phase
`interface_review`; a second `resume_auto_plan` with feedback `approved`
ends with phase `done` — each transition produces exactly that next phase
name. -/
theorem C1_auto_plan_happy_path (b : PlanAuto.Backend) (task root cwd : String)
    (fs : PlanAuto.FS) (p i c t : String)
    (hplan : b.generate_plan task (if root = "" then cwd else root) = .ok p)
    (hiface : b.generate_interface p (if root = "" then cwd else root) = .ok i)
    (hcode : b.generate_code_and_tests i (if root = "" then cwd else root) = .ok (c, t)) :
    PlanAuto.start_auto_plan b task root cwd fs =
      (⟨task, if root = "" then cwd else root, "", "plan_review"⟩,
       { fs with plan_md := some p }, PlanAuto.Node.plan_review) ∧
    PlanAuto.resume_auto_plan b "approved"
        ⟨task, if root = "" then cwd else root, "", "plan_review"⟩
        { fs with plan_md := some p } PlanAuto.Node.plan_review =
      (⟨task, if root = "" then cwd else root, "", "interface_review"⟩,
       { fs with plan_md := some p, interface_md := some i }, PlanAuto.Node.interface_review) ∧
    PlanAuto.resume_auto_plan b "approved"
        ⟨task, if root = "" then cwd else root, "", "interface_review"⟩
        { fs with plan_md := some p, interface_md := some i } PlanAuto.Node.interface_review =
      (⟨task, if root = "" then cwd else root, "", "done"⟩,
       { fs with plan_md := some p, interface_md := some i,
                 code_py := some c, test_py := some t }, PlanAuto.Node.finish) := by
  refine ⟨?_, ?_, ?_⟩
  · unfold PlanAuto.start_auto_plan
    rw [show (8 : Nat) = 7 + 1 from rfl, PlanAuto.run_planner]
    have hgen : PlanAuto.plannerGen b
        ⟨task, if root = "" then cwd else root, "", "planning"⟩ fs = .ok p := by
      simp only [PlanAuto.plannerGen]
      simpa using hplan
    simp [PlanAuto.execNode, PlanAuto._planner, PlanAuto.plannerTry, hgen, PlanAuto.applyPatch]
  · unfold PlanAuto.resume_auto_plan
    rw [if_neg (by decide)]
    rw [show (8 : Nat) = 7 + 1 from rfl, PlanAuto.run_plan_review]
    rw [if_pos (by rfl)]
    rw [show (7 : Nat) = 6 + 1 from rfl, PlanAuto.run_interfacer]
    have hgen : PlanAuto.interfacerGen b
        ⟨task, if root = "" then cwd else root, "approved", "plan_review"⟩
        { fs with plan_md := some p } p = .ok i := by
      simp only [PlanAuto.interfacerGen]
      simpa using hiface
    simp [PlanAuto.execNode, PlanAuto._interfacer, PlanAuto.interfacerTry, hgen,
      PlanAuto.applyPatch]
  · unfold PlanAuto.resume_auto_plan
    rw [if_neg (by decide)]
    rw [show (8 : Nat) = 7 + 1 from rfl, PlanAuto.run_interface_review]
    rw [if_pos (by rfl)]
    rw [show (7 : Nat) = 6 + 1 from rfl, PlanAuto.run_executor]
    have hgen : b.generate_code_and_tests i
        (PlanAuto.PlanningState.mk task (if root = "" then cwd else root)
          "approved" "interface_review").project_root = .ok (c, t) := hcode
    simp [PlanAuto.execNode, PlanAuto._executor, PlanAuto.executorTry, hgen, PlanAuto.applyPatch]

/-- C1 witness: the happy path evaluated on a concrete backend and inputs. -/
theorem C1_auto_plan_happy_path_witness :
    PlanAuto.start_auto_plan PlanAuto.okBackend "t" "/p" "/c" ⟨none, none, none, none⟩ =
      (⟨"t", "/p", "", "plan_review"⟩, ⟨some "P", none, none, none⟩,
       PlanAuto.Node.plan_review) ∧
    PlanAuto.resume_auto_plan PlanAuto.okBackend "approved"
        ⟨"t", "/p", "", "plan_review"⟩ ⟨some "P", none, none, none⟩
        PlanAuto.Node.plan_review =
      (⟨"t", "/p", "", "interface_review"⟩, ⟨some "P", some "I", none, none⟩,
       PlanAuto.Node.interface_review) ∧
    PlanAuto.resume_auto_plan PlanAuto.okBackend "approved"
        ⟨"t", "/p", "", "interface_review"⟩ ⟨some "P", some "I", none, none⟩
        PlanAuto.Node.interface_review =
      (⟨"t", "/p", "", "done"⟩, ⟨some "P", some "I", some "C", some "T"⟩,
       PlanAuto.Node.finish) :=
  C1_auto_plan_happy_path PlanAuto.okBackend "t" "/p" "/c"
    ⟨none, none, none, none⟩ "P" "I" "C" "T" rfl rfl rfl

/-- C2: the revision loop advances only on approval.  For every feedback
string whose stripped, lowercased form is not the approval token
`approved`, resuming a session paused at plan review routes back to the
planner (the plan artifact is regenerated) and pauses at plan review again
with phase `plan_review`; feedback equal to the approval token advances to
the interfacer and pauses with phase `interface_review`.  The PR-review
variant's gate treats any of `approved`, `next`, `continue`, `yes`, `ok`
as the approval token and advances its cursor. -/
theorem C2_revision_only_on_approval (b : PlanAuto.Backend)
    (st : PlanAuto.PlanningState) (fs : PlanAuto.FS) (fb : String)
    (hgen : ∀ t r, ∃ v, b.generate_plan t r = .ok v)
    (hrev : ∀ t r ex f, ∃ v, b.generate_plan_revision t r ex f = .ok v)
    (hif : ∀ pc r, ∃ v, b.generate_interface pc r = .ok v)
    (hifrev : ∀ pc r ex f, ∃ v, b.generate_interface_revision pc r ex f = .ok v) :
    (pyLower (pyStrip fb) ≠ "approved" →
      ∃ v, PlanAuto.resume_auto_plan b fb st fs PlanAuto.Node.plan_review =
        ({ st with human_feedback := "", phase := "plan_review" },
         { fs with plan_md := some v }, PlanAuto.Node.plan_review)) ∧
    (pyLower (pyStrip fb) = "approved" → ∀ pc, fs.plan_md = some pc →
      ∃ v, PlanAuto.resume_auto_plan b fb st fs PlanAuto.Node.plan_review =
        ({ st with human_feedback := "", phase := "interface_review" },
         { fs with interface_md := some v }, PlanAuto.Node.interface_review)) ∧
    (∀ st2 : PRReview.PRReviewState,
      pyLower (pyStrip st2.human_feedback) ∈
        (["approved", "next", "continue", "yes", "ok"] : List String) →
      (PRReview._gate st2).current_index = st2.current_index + 1 ∧
      ((PRReview._gate st2).phase = "done" ∨ (PRReview._gate st2).phase = "recommendation")) := by
  refine ⟨?_, ?_, ?_⟩
  · intro hne
    unfold PlanAuto.resume_auto_plan
    rw [if_neg (by decide)]
    rw [show (8 : Nat) = 7 + 1 from rfl, PlanAuto.run_plan_review]
    rw [if_neg (by simp [PlanAuto._route_plan_review, hne])]
    rw [show (7 : Nat) = 6 + 1 from rfl, PlanAuto.run_planner]
    have hpg : ∃ v, PlanAuto.plannerGen b
        { st with human_feedback := fb, phase := "plan_review" } fs = .ok v := by
      unfold PlanAuto.plannerGen
      dsimp only
      by_cases hcond : (decide (fb ≠ "") && decide (pyStrip (pyLower fb) ≠ "approved")
          && fs.plan_md.isSome) = true
      · rw [if_pos hcond]
        exact hrev _ _ _ _
      · rw [if_neg hcond]
        exact hgen _ _
    obtain ⟨v, hv⟩ := hpg
    exact ⟨v, by simp [PlanAuto.execNode, PlanAuto._planner, PlanAuto.plannerTry, hv,
      PlanAuto.applyPatch]⟩
  · intro happ pc hpc
    unfold PlanAuto.resume_auto_plan
    rw [if_neg (by decide)]
    rw [show (8 : Nat) = 7 + 1 from rfl, PlanAuto.run_plan_review]
    rw [if_pos (by simp [PlanAuto._route_plan_review, happ])]
    rw [show (7 : Nat) = 6 + 1 from rfl, PlanAuto.run_interfacer]
    have hig : ∃ v, PlanAuto.interfacerGen b
        { st with human_feedback := fb, phase := "plan_review" } fs pc = .ok v := by
      unfold PlanAuto.interfacerGen
      dsimp only
      by_cases hcond : (decide (fb ≠ "") && decide (pyStrip (pyLower fb) ≠ "approved")
          && fs.interface_md.isSome) = true
      · rw [if_pos hcond]
        exact hifrev _ _ _ _
      · rw [if_neg hcond]
        exact hif _ _
    obtain ⟨v, hv⟩ := hig
    exact ⟨v, by simp [PlanAuto.execNode, PlanAuto._interfacer, PlanAuto.interfacerTry,
      hpc, hv, PlanAuto.applyPatch]⟩
  · intro st2 hmem
    simp only [List.mem_cons, List.mem_singleton, List.not_mem_nil, or_false] at hmem
    unfold PRReview._gate
    rcases hmem with h | h | h | h | h <;>
      rw [h] <;>
      simp <;>
      split <;>
      simp

/-- C2 witness: revision feedback loops back at plan review, approval
advances, and the PR gate consumes an approval token. -/
theorem C2_revision_only_on_approval_witness :
    (∃ v, PlanAuto.resume_auto_plan PlanAuto.okBackend "add detail"
        ⟨"t", "/p", "", "plan_review"⟩ ⟨some "P", none, none, none⟩
        PlanAuto.Node.plan_review =
      (⟨"t", "/p", "", "plan_review"⟩, ⟨some v, none, none, none⟩,
       PlanAuto.Node.plan_review)) ∧
    (∃ v, PlanAuto.resume_auto_plan PlanAuto.okBackend "approved"
        ⟨"t", "/p", "", "plan_review"⟩ ⟨some "P", none, none, none⟩
        PlanAuto.Node.plan_review =
      (⟨"t", "/p", "", "interface_review"⟩, ⟨some "P", some v, none, none⟩,
       PlanAuto.Node.interface_review)) ∧
    (PRReview._gate ⟨"u", "/r", ["a", "b"], 0, "next", "recommendation",
        "", "", "", ""⟩).current_index = 1 := by
  have h1 := C2_revision_only_on_approval PlanAuto.okBackend
    ⟨"t", "/p", "", "plan_review"⟩ ⟨some "P", none, none, none⟩ "add detail"
    (fun _ _ => ⟨"P", rfl⟩) (fun _ _ _ _ => ⟨"P2", rfl⟩)
    (fun _ _ => ⟨"I", rfl⟩) (fun _ _ _ _ => ⟨"I2", rfl⟩)
  have h2 := C2_revision_only_on_approval PlanAuto.okBackend
    ⟨"t", "/p", "", "plan_review"⟩ ⟨some "P", none, none, none⟩ "approved"
    (fun _ _ => ⟨"P", rfl⟩) (fun _ _ _ _ => ⟨"P2", rfl⟩)
    (fun _ _ => ⟨"I", rfl⟩) (fun _ _ _ _ => ⟨"I2", rfl⟩)
  refine ⟨h1.1 (by decide), h2.2.1 (by decide) "P" rfl, (h1.2.2 _ (by decide)).1⟩

/-- C3: abort mid-list.  For every PR-review state with a non-empty
recommendations list and any current index, resuming the session paused at
the gate with feedback `abort` sets phase to `aborted`, keeps the index,
and routes to the end of the graph, regardless of how many recommendations
remain. -/
theorem C3_abort_mid_list (env : PRReview.Env) (st : PRReview.PRReviewState)
    (hrecs : st.recommendations ≠ []) :
    PRReview.resume_pr_review env "" "abort" st PRReview.Node.gate =
      ({ st with human_feedback := "abort", phase := "aborted" },
       PRReview.Node.finish) := by
  rfl

/-- C3 witness: abort from item 1 of 3. -/
theorem C3_abort_mid_list_witness :
    PRReview.resume_pr_review PRReview.sampleEnv "" "abort"
        ⟨"u", "/r", ["a", "b", "c"], 0, "", "recommendation", "", "", "", ""⟩
        PRReview.Node.gate =
      (⟨"u", "/r", ["a", "b", "c"], 0, "abort", "aborted", "", "", "", ""⟩,
       PRReview.Node.finish) :=
  C3_abort_mid_list PRReview.sampleEnv
    ⟨"u", "/r", ["a", "b", "c"], 0, "", "recommendation", "", "", "", ""⟩
    (by decide)

/-- C4: step failure is caught, not propagated.  For each step of the auto
planning graph (planner, interfacer, executor), when the step body raises,
the engine-visible result is a patch with phase set to `error` and a
human-readable description in `human_feedback`, and the exception does not
escape the step; a failing start pauses at plan review in phase `error`
with the description attached and is not retried. -/
theorem C4_step_errors_caught (b : PlanAuto.Backend) (st : PlanAuto.PlanningState)
    (fs : PlanAuto.FS) (e : String) (task root cwd : String) :
    (PlanAuto.plannerTry b st fs = .error e →
      PlanAuto._planner b st fs =
        ({ phase := some "error",
           human_feedback := some ("Planner error: " ++ e) }, fs)) ∧
    (PlanAuto.interfacerTry b st fs = .error e →
      PlanAuto._interfacer b st fs =
        ({ phase := some "error",
           human_feedback := some ("Interfacer error: " ++ e) }, fs)) ∧
    (PlanAuto.executorTry b st fs = .error e →
      PlanAuto._executor b st fs =
        ({ phase := some "error",
           human_feedback := some ("Executor error: " ++ e) }, fs)) ∧
    (b.generate_plan task (if root = "" then cwd else root) = .error e →
      PlanAuto.start_auto_plan b task root cwd fs =
        (⟨task, if root = "" then cwd else root, "Planner error: " ++ e, "error"⟩,
         fs, PlanAuto.Node.plan_review)) := by
  refine ⟨?_, ?_, ?_, ?_⟩
  · intro herr
    unfold PlanAuto._planner
    rw [herr]
  · intro herr
    unfold PlanAuto._interfacer
    rw [herr]
  · intro herr
    unfold PlanAuto._executor
    rw [herr]
  · intro herr
    unfold PlanAuto.start_auto_plan
    rw [show (8 : Nat) = 7 + 1 from rfl, PlanAuto.run_planner]
    have hgen : PlanAuto.plannerGen b
        ⟨task, if root = "" then cwd else root, "", "planning"⟩ fs = .error e := by
      simp only [PlanAuto.plannerGen]
      simpa using herr
    simp [PlanAuto.execNode, PlanAuto._planner, PlanAuto.plannerTry, hgen, PlanAuto.applyPatch]

/-- C4 witness: the always-raising backend on concrete inputs. -/
theorem C4_step_errors_caught_witness :
    PlanAuto._planner PlanAuto.failBackend ⟨"t", "/p", "", "planning"⟩
        ⟨some "P", some "I", none, none⟩ =
      ({ phase := some "error", human_feedback := some "Planner error: boom" },
       ⟨some "P", some "I", none, none⟩) ∧
    PlanAuto._interfacer PlanAuto.failBackend ⟨"t", "/p", "", "planning"⟩
        ⟨some "P", some "I", none, none⟩ =
      ({ phase := some "error", human_feedback := some "Interfacer error: boom" },
       ⟨some "P", some "I", none, none⟩) ∧
    PlanAuto._executor PlanAuto.failBackend ⟨"t", "/p", "", "planning"⟩
        ⟨some "P", some "I", none, none⟩ =
      ({ phase := some "error", human_feedback := some "Executor error: boom" },
       ⟨some "P", some "I", none, none⟩) ∧
    PlanAuto.start_auto_plan PlanAuto.failBackend "t" "/p" "/c"
        ⟨some "P", some "I", none, none⟩ =
      (⟨"t", "/p", "Planner error: boom", "error"⟩,
       ⟨some "P", some "I", none, none⟩, PlanAuto.Node.plan_review) := by
  obtain ⟨h1, h2, h3, h4⟩ := C4_step_errors_caught PlanAuto.failBackend
    ⟨"t", "/p", "", "planning"⟩ ⟨some "P", some "I", none, none⟩ "boom" "t" "/p" "/c"
  exact ⟨h1 rfl, h2 rfl, h3 rfl, h4 rfl⟩

/-- C5 counterexample: `resume_interactive_plan` called with both a
non-empty content patch and a non-empty feedback patch is NOT rejected:
both patches are merged, the gate routes on the content, the save step runs
(writing `plan.md` and advancing the phase to `interface`), and the
subsequent assemble consumes the feedback — there is no error and steps do
execute, contradicting the claim. -/
theorem C5_both_patches_not_rejected_cex :
    PlanInteractive.resume_interactive_plan "X" "Y"
        ⟨"t", "/p", "plan", "", "", ""⟩ ⟨none, none, none, none, ""⟩
        PlanInteractive.Node.gate =
      .ok (⟨"t", "/p", "interface",
            PlanInteractive.assemble_interface_context "X" "/p" "Y" "", "", ""⟩,
           ⟨some "X", none, none, none, ""⟩, PlanInteractive.Node.gate) := by
  rfl

/-- C5 (amended): supplying both a non-empty content patch and a non-empty
feedback patch to `resume_interactive_plan` is accepted, not rejected: both
patches are merged into state, the gate routes on the content (the save
step runs), the artifact of the current phase is written from the content,
and the phase advances exactly as on a content-only resume. -/
theorem C5_both_patches_accepted (st : PlanInteractive.InteractivePlanningState)
    (fs : PlanInteractive.FS) (content feedback : String)
    (hc : pyStrip content ≠ "") (hf : feedback ≠ "") :
    ∃ r, PlanInteractive.resume_interactive_plan content feedback st fs
        PlanInteractive.Node.gate = .ok r ∧
      r.1.generated_content = "" ∧
      (st.phase = "plan" →
        r.1.phase = "interface" ∧ r.2.1.plan_md = some content ∧
        r.2.2 = PlanInteractive.Node.gate) ∧
      (st.phase = "interface" →
        r.1.phase = "code" ∧ r.2.1.interface_md = some content ∧
        r.2.2 = PlanInteractive.Node.gate) ∧
      (st.phase = "code" →
        r.1.phase = "done" ∧ r.2.2 = PlanInteractive.Node.finish) ∧
      (st.phase ≠ "plan" → st.phase ≠ "interface" → st.phase ≠ "code" →
        r.1.phase = "done" ∧ r.2.2 = PlanInteractive.Node.finish) := by
  obtain ⟨td, pr, ph, cb, gc, hf0⟩ := st
  have hcne : content ≠ "" := pyStrip_ne_empty_of hc
  unfold PlanInteractive.resume_interactive_plan
  dsimp only
  rw [if_pos hcne]
  dsimp only
  rw [if_pos hf, if_neg (by decide)]
  rw [show (8 : Nat) = 7 + 1 from rfl, PlanInteractive.run_gate]
  rw [if_pos (by simp [PlanInteractive._route_gate, hc])]
  rw [show (7 : Nat) = 6 + 1 from rfl, PlanInteractive.run_save]
  by_cases h1 : ph = "plan"
  · subst h1
    rw [if_neg (by simp [PlanInteractive._save, PlanInteractive.applyPatch,
      PlanInteractive._route_after_save])]
    rw [show (6 : Nat) = 5 + 1 from rfl, PlanInteractive.run_assemble]
    simp [PlanInteractive._save, PlanInteractive.applyPatch, PlanInteractive._assemble]
  · by_cases h2 : ph = "interface"
    · subst h2
      rw [if_neg (by simp [PlanInteractive._save, PlanInteractive.applyPatch,
        PlanInteractive._route_after_save])]
      rw [show (6 : Nat) = 5 + 1 from rfl, PlanInteractive.run_assemble]
      simp [PlanInteractive._save, PlanInteractive.applyPatch, PlanInteractive._assemble]
    · by_cases h3 : ph = "code"
      · subst h3
        rw [if_pos (by simp [PlanInteractive._save, PlanInteractive.applyPatch,
          PlanInteractive._route_after_save])]
        simp [PlanInteractive._save, PlanInteractive.applyPatch]
      · rw [if_pos (by simp [PlanInteractive._save, PlanInteractive.applyPatch,
          PlanInteractive._route_after_save, h1, h2, h3])]
        simp [PlanInteractive._save, PlanInteractive.applyPatch, h1, h2, h3]

/-- C5 (amended) witness: both patches on a concrete plan-phase session. -/
theorem C5_both_patches_accepted_witness :
    ∃ r, PlanInteractive.resume_interactive_plan "X" "Y"
        ⟨"t", "/p", "plan", "", "", ""⟩ ⟨none, none, none, none, ""⟩
        PlanInteractive.Node.gate = .ok r ∧
      r.1.generated_content = "" ∧
      ("plan" = "plan" →
        r.1.phase = "interface" ∧ r.2.1.plan_md = some "X" ∧
        r.2.2 = PlanInteractive.Node.gate) ∧
      ("plan" = "interface" →
        r.1.phase = "code" ∧ r.2.1.interface_md = some "X" ∧
        r.2.2 = PlanInteractive.Node.gate) ∧
      ("plan" = "code" →
        r.1.phase = "done" ∧ r.2.2 = PlanInteractive.Node.finish) ∧
      ("plan" ≠ "plan" → "plan" ≠ "interface" → "plan" ≠ "code" →
        r.1.phase = "done" ∧ r.2.2 = PlanInteractive.Node.finish) :=
  C5_both_patches_accepted ⟨"t", "/p", "plan", "", "", ""⟩
    ⟨none, none, none, none, ""⟩ "X" "Y" (by decide) (by decide)

/-- C6: terminal immutability.  For every session whose latest state has
phase `done` (the thread reached the end of the graph), a further
`resume_auto_plan` only records the new feedback: it never re-executes the
executor or its side effects (the file store is unchanged), the phase stays
`done`, and a second such call behaves the same way. -/
theorem C6_terminal_immutability (b : PlanAuto.Backend) (st : PlanAuto.PlanningState)
    (fs : PlanAuto.FS) (fb fb2 : String) (hdone : st.phase = "done") :
    PlanAuto.resume_auto_plan b fb st fs PlanAuto.Node.finish =
      ({ st with human_feedback := fb }, fs, PlanAuto.Node.finish) ∧
    (PlanAuto.resume_auto_plan b fb st fs PlanAuto.Node.finish).1.phase = "done" ∧
    PlanAuto.resume_auto_plan b fb2
        (PlanAuto.resume_auto_plan b fb st fs PlanAuto.Node.finish).1 fs
        PlanAuto.Node.finish =
      ({ st with human_feedback := fb2 }, fs, PlanAuto.Node.finish) := by
  refine ⟨rfl, ?_, rfl⟩
  simpa using hdone

/-- C6 witness: two resumes of a concrete finished session. -/
theorem C6_terminal_immutability_witness :
    PlanAuto.resume_auto_plan PlanAuto.okBackend "more"
        ⟨"t", "/p", "", "done"⟩ ⟨some "P", some "I", some "C", some "T"⟩
        PlanAuto.Node.finish =
      (⟨"t", "/p", "more", "done"⟩, ⟨some "P", some "I", some "C", some "T"⟩,
       PlanAuto.Node.finish) ∧
    (PlanAuto.resume_auto_plan PlanAuto.okBackend "more"
        ⟨"t", "/p", "", "done"⟩ ⟨some "P", some "I", some "C", some "T"⟩
        PlanAuto.Node.finish).1.phase = "done" ∧
    PlanAuto.resume_auto_plan PlanAuto.okBackend "again"
        (PlanAuto.resume_auto_plan PlanAuto.okBackend "more"
          ⟨"t", "/p", "", "done"⟩ ⟨some "P", some "I", some "C", some "T"⟩
          PlanAuto.Node.finish).1
        ⟨some "P", some "I", some "C", some "T"⟩ PlanAuto.Node.finish =
      (⟨"t", "/p", "again", "done"⟩, ⟨some "P", some "I", some "C", some "T"⟩,
       PlanAuto.Node.finish) :=
  C6_terminal_immutability PlanAuto.okBackend ⟨"t", "/p", "", "done"⟩
    ⟨some "P", some "I", some "C", some "T"⟩ "more" "again" rfl

/-- C7: routing totality and candidate-set containment.  Every routing
function returns a step name inside its declared candidate set —
`_route_gate` only `save` or `assemble`, `_route_plan_review` only
`interfacer` or `planner`, `_route_after_gate` only
`present_recommendation` or `__end__` — and every value not equal to the
approval token takes the default revise/stay branch. -/
theorem C7_routing_totality :
    (∀ st : PlanInteractive.InteractivePlanningState,
      PlanInteractive._route_gate st = "save" ∨
        PlanInteractive._route_gate st = "assemble") ∧
    (∀ st : PlanAuto.PlanningState,
      PlanAuto._route_plan_review st = "interfacer" ∨
        PlanAuto._route_plan_review st = "planner") ∧
    (∀ st : PRReview.PRReviewState,
      PRReview._route_after_gate st = "present_recommendation" ∨
        PRReview._route_after_gate st = "__end__") ∧
    (∀ st : PlanAuto.PlanningState, pyLower (pyStrip st.human_feedback) ≠ "approved" →
      PlanAuto._route_plan_review st = "planner") ∧
    (∀ st : PlanInteractive.InteractivePlanningState, pyStrip st.generated_content = "" →
      PlanInteractive._route_gate st = "assemble") := by
  refine ⟨?_, ?_, ?_, ?_, ?_⟩
  · intro st
    unfold PlanInteractive._route_gate
    split <;> simp
  · intro st
    unfold PlanAuto._route_plan_review
    split <;> simp
  · intro st
    unfold PRReview._route_after_gate
    split <;> simp
  · intro st h
    unfold PlanAuto._route_plan_review
    rw [if_neg h]
  · intro st h
    unfold PlanInteractive._route_gate
    simp [h]

/-- C7 witness: the default branches on concrete ambiguous feedback. -/
theorem C7_routing_totality_witness :
    PlanAuto._route_plan_review ⟨"t", "/p", "huh", "plan_review"⟩ = "planner" ∧
    PlanInteractive._route_gate ⟨"t", "/p", "plan", "", "", "notes"⟩ = "assemble" :=
  ⟨C7_routing_totality.2.2.2.1 ⟨"t", "/p", "huh", "plan_review"⟩ (by decide),
   C7_routing_totality.2.2.2.2 ⟨"t", "/p", "plan", "", "", "notes"⟩ (by decide)⟩

/-- C8: feedback is consumed exactly once.  Each generation step of the auto
flow (planner, interfacer, executor), whenever it does not fail, returns a
patch that resets `human_feedback` to the empty string, and the interactive
`_assemble` step additionally clears `generated_content` — so at a pause
point the feedback field is empty unless freshly supplied by the current
resume call. -/
theorem C8_feedback_consumed_once (b : PlanAuto.Backend) (st : PlanAuto.PlanningState)
    (fs : PlanAuto.FS) (ist : PlanInteractive.InteractivePlanningState)
    (ifs : PlanInteractive.FS) :
    ((PlanAuto._planner b st fs).1.phase ≠ some "error" →
      (PlanAuto._planner b st fs).1.human_feedback = some "") ∧
    ((PlanAuto._interfacer b st fs).1.phase ≠ some "error" →
      (PlanAuto._interfacer b st fs).1.human_feedback = some "") ∧
    ((PlanAuto._executor b st fs).1.phase ≠ some "error" →
      (PlanAuto._executor b st fs).1.human_feedback = some "") ∧
    (∀ p, PlanInteractive._assemble ist ifs = .ok p →
      p.human_feedback = some "" ∧ p.generated_content = some "") := by
  refine ⟨?_, ?_, ?_, ?_⟩
  · intro hne
    unfold PlanAuto._planner PlanAuto.plannerTry at *
    cases hg : PlanAuto.plannerGen b st fs with
    | error e => rw [hg] at hne; simp at hne
    | ok content => rfl
  · intro hne
    unfold PlanAuto._interfacer PlanAuto.interfacerTry at *
    cases hp : fs.plan_md with
    | none => rw [hp] at hne; simp at hne
    | some pc =>
      rw [hp] at hne
      cases hg : PlanAuto.interfacerGen b st fs pc with
      | error e => simp [hg] at hne
      | ok content => simp [hg]
  · intro hne
    unfold PlanAuto._executor PlanAuto.executorTry at *
    cases hp : fs.interface_md with
    | none => rw [hp] at hne; simp at hne
    | some ic =>
      rw [hp] at hne
      cases hg : b.generate_code_and_tests ic st.project_root with
      | error e => simp [hg] at hne
      | ok ct => simp [hg]
  · intro p hp
    unfold PlanInteractive._assemble at hp
    split_ifs at hp
    · cases hp
      exact ⟨rfl, rfl⟩
    · cases hq : ifs.plan_md with
      | none => rw [hq] at hp; cases hp
      | some plan => rw [hq] at hp; cases hp; exact ⟨rfl, rfl⟩
    · cases hq : ifs.interface_md with
      | none => rw [hq] at hp; cases hp
      | some iface => rw [hq] at hp; cases hp; exact ⟨rfl, rfl⟩
    · cases hp
      exact ⟨rfl, rfl⟩

/-- C8 witness: successful steps on concrete inputs clear the feedback. -/
theorem C8_feedback_consumed_once_witness :
    (PlanAuto._planner PlanAuto.okBackend ⟨"t", "/p", "", "planning"⟩
      ⟨none, none, none, none⟩).1.human_feedback = some "" ∧
    ((⟨none, some "", some "", some ""⟩ : PlanInteractive.Patch).human_feedback = some "" ∧
     (⟨none, some "", some "", some ""⟩ : PlanInteractive.Patch).generated_content = some "") := by
  have h := C8_feedback_consumed_once PlanAuto.okBackend ⟨"t", "/p", "", "planning"⟩
    ⟨none, none, none, none⟩ ⟨"t", "/p", "review", "", "", ""⟩
    ⟨none, none, none, none, ""⟩
  exact ⟨h.1 (by decide), h.2.2.2 ⟨none, some "", some "", some ""⟩ rfl⟩

/-- C9: `parse_recommendations` is total and non-empty on non-empty input:
it returns the empty list exactly when the input is empty or
whitespace-only, and on any input containing a non-whitespace character it
returns a non-empty list of non-empty recommendation strings. -/
theorem C9_parse_recommendations_total (s : String) :
    (parse_recommendations s = [] ↔ pyStrip s = "") ∧
    (pyStrip s ≠ "" →
      parse_recommendations s ≠ [] ∧ ∀ x ∈ parse_recommendations s, x ≠ "") := by
  by_cases h : pyStrip s = ""
  · refine ⟨⟨fun _ => h, fun _ => by simp [parse_recommendations, h]⟩,
      fun hc => absurd h hc⟩
  · have hs : s ≠ "" := pyStrip_ne_empty_of h
    have hzeta : parseCore s =
        (if recCleaned (recSec (pyStrip s)) ≠ [] then recCleaned (recSec (pyStrip s))
         else if pyStrip (recSec (pyStrip s)) ≠ "" then [recSec (pyStrip s)] else [s]) := rfl
    have hcore : parseCore s ≠ [] ∧ ∀ x ∈ parseCore s, x ≠ "" := by
      rw [hzeta]
      by_cases hc1 : recCleaned (recSec (pyStrip s)) = []
      · rw [if_neg (by simpa using hc1)]
        by_cases hc2 : pyStrip (recSec (pyStrip s)) = ""
        · rw [if_neg (by simpa using hc2)]
          exact ⟨by simp, by intro x hx; simp only [List.mem_singleton] at hx; subst hx; exact hs⟩
        · rw [if_pos hc2]
          refine ⟨by simp, ?_⟩
          intro x hx
          simp only [List.mem_singleton] at hx
          subst hx
          intro hx0
          apply hc2
          rw [hx0]
          exact pyStrip_empty
      · rw [if_pos hc1]
        refine ⟨hc1, ?_⟩
        intro x hx
        unfold recCleaned at hx
        simp only [List.mem_filter, decide_eq_true_eq] at hx
        exact hx.2
    have hpr : parse_recommendations s = parseCore s := by
      unfold parse_recommendations
      rw [if_neg h]
    rw [hpr]
    exact ⟨⟨fun hc => absurd hc hcore.1, fun hc => absurd hc h⟩, fun _ => hcore⟩

/-- C9 witness: a concrete numbered review parses to a non-empty list of
non-empty items. -/
theorem C9_parse_recommendations_total_witness :
    parse_recommendations "## Recommendations\n1. fix\n2. test" ≠ [] ∧
    ∀ x ∈ parse_recommendations "## Recommendations\n1. fix\n2. test", x ≠ "" :=
  (C9_parse_recommendations_total "## Recommendations\n1. fix\n2. test").2 (by decide)

/-- C10: recommendation display is bounds-safe.  `_present_recommendation`
never indexes the recommendations list out of bounds: when the current
index is outside `[0, length)` it sets `current_recommendation_text` to the
empty string, and in bounds it displays exactly the indexed recommendation;
the phase is always `recommendation`. -/
theorem C10_present_bounds_safe (st : PRReview.PRReviewState) :
    ((st.current_index < 0 ∨ (st.recommendations.length : Int) ≤ st.current_index) →
      (PRReview._present_recommendation st).current_recommendation_text = "") ∧
    (PRReview._present_recommendation st).phase = "recommendation" ∧
    ∀ (h1 : 0 ≤ st.current_index)
      (h2 : st.current_index < (st.recommendations.length : Int)),
      (PRReview._present_recommendation st).current_recommendation_text =
        st.recommendations.get ⟨st.current_index.toNat, by omega⟩ := by
  unfold PRReview._present_recommendation PRReview.listGet
  refine ⟨?_, rfl, ?_⟩
  · intro hout
    split
    · omega
    · rfl
  · intro h1 h2
    split
    · rfl
    · omega

/-- C10 witness: an index past the end (as after the final approval) yields
the empty string; an in-bounds index yields the item. -/
theorem C10_present_bounds_safe_witness :
    (PRReview._present_recommendation
      ⟨"u", "/r", ["a"], 5, "", "recommendation", "", "", "", ""⟩).current_recommendation_text
        = "" ∧
    (PRReview._present_recommendation
      ⟨"u", "/r", ["a"], 0, "", "recommendation", "", "", "", ""⟩).current_recommendation_text
        = "a" :=
  ⟨(C10_present_bounds_safe
      ⟨"u", "/r", ["a"], 5, "", "recommendation", "", "", "", ""⟩).1 (by simp),
   (C10_present_bounds_safe
      ⟨"u", "/r", ["a"], 0, "", "recommendation", "", "", "", ""⟩).2.2 (by decide) (by decide)⟩
